import Mathlib

/-!
Verification of the predictive-maintenance core (data simulator, health
classification, inference preprocessing and monitoring orchestration)
against its natural-language specification.

The Python source is shallowly embedded: floats become exact rationals,
`random.uniform` / `random.gauss` draws become explicit parameters (with a
validity predicate recording the uniform ranges), `datetime.now()` becomes
an injected clock stream, and exceptions become `Except` values.
-/

/-- Python `round` on an exact rational: round half to even (banker's
rounding), as Python's builtin `round` behaves on representable values. -/
def pyRoundInt (q : ℚ) : ℤ :=
  let f := ⌊q⌋
  if q - f < 1/2 then f
  else if 1/2 < q - f then f + 1
  else if f % 2 = 0 then f else f + 1

/-- Python `round(x, 1)`. -/
def pyRound1 (q : ℚ) : ℚ := (pyRoundInt (q * 10) : ℚ) / 10

/-- Python `round(x, 4)` (used on probabilities in prediction results). -/
def pyRound4 (q : ℚ) : ℚ := (pyRoundInt (q * 10000) : ℚ) / 10000

/-- Python `int(x)`: truncation toward zero. -/
def pyInt (q : ℚ) : ℤ := if 0 ≤ q then ⌊q⌋ else ⌈q⌉

/-- `np.clip(x, lo, hi)`. -/
def clip (x lo hi : ℚ) : ℚ := min (max x lo) hi

/-- config.FAILURE_THRESHOLD. -/
def FAILURE_THRESHOLD : ℚ := 6/10

/-- config.HEALTH_STATUS: insertion-ordered band table of
(name, lower bound, upper bound). -/
def HEALTH_STATUS : List (String × ℚ × ℚ) :=
  [("healthy", 0, 3/10), ("risk", 3/10, 6/10), ("maintenance_required", 6/10, 1)]

/-- `status.upper().replace('_', ' ')` applied to a band name on return
from `ModelInference._get_health_status`. The replaced pattern is the
single character '_' (left unchanged by upper-casing), so the composition
is exactly this per-character map. -/
def statusText (status : String) : String :=
  String.mk (status.data.map (fun c => if c = '_' then ' ' else c.toUpper))

/-- The loop body of `ModelInference._get_health_status`: first band whose
half-open interval `min_prob <= p < max_prob` contains `p`. -/
def findStatus (p : ℚ) : List (String × ℚ × ℚ) → Option String
  | [] => none
  | (status, lo, hi) :: rest =>
      if lo ≤ p ∧ p < hi then some (statusText status) else findStatus p rest

/-- `ModelInference._get_health_status`: table lookup with the default
"MAINTENANCE REQUIRED" when no interval matches. -/
def get_health_status (p : ℚ) : String :=
  (findStatus p HEALTH_STATUS).getD "MAINTENANCE REQUIRED"

/-- The ordered feature-column list recorded in the model metadata by
`train_model.py` (dataset column order after renaming, with
`Type_encoded`, `Temp_diff` and `Power` appended in that order). -/
def FEATURE_COLUMNS : List String :=
  ["Air_temperature_K", "Process_temperature_K", "Rotational_speed_rpm",
   "Torque_Nm", "Tool_wear_min", "Type_encoded", "Temp_diff", "Power"]

/-- Mutable per-machine state of `MachineSimulator`. -/
structure MachineState where
  machine_id : String
  machine_type : String
  tool_wear : ℚ
  air_temp_baseline : ℚ
  process_temp_baseline : ℚ
  speed_baseline : ℚ
  torque_baseline : ℚ
  degradation_rate : ℚ
  operating_mode : String
  cycles : ℕ
  deriving DecidableEq

/-- The values drawn by `MachineSimulator.__init__` for one machine
(`random.uniform` calls, one per mutable numeric field). -/
structure InitDraws where
  wear : ℚ
  airT : ℚ
  procT : ℚ
  speed : ℚ
  torque : ℚ
  deg : ℚ
  deriving DecidableEq

/-- `MachineSimulator.__init__`: the drawn values populate the state; which
uniform ranges they were drawn from depends on `initial_condition`
(see `InitDrawsValid`). -/
def mkMachineState (machine_id machine_type initial_condition : String)
    (d : InitDraws) : MachineState :=
  { machine_id := machine_id, machine_type := machine_type,
    tool_wear := d.wear, air_temp_baseline := d.airT,
    process_temp_baseline := d.procT, speed_baseline := d.speed,
    torque_baseline := d.torque, degradation_rate := d.deg,
    operating_mode := "normal", cycles := 0 }

/-- The uniform ranges of the draws in `MachineSimulator.__init__`, per
initial condition (any unrecognised condition falls to the default
branch, as the Python `else` does). -/
def InitDrawsValid (initial_condition : String) (d : InitDraws) : Prop :=
  if initial_condition = "healthy" then
    5 ≤ d.wear ∧ d.wear ≤ 45 ∧ 296 ≤ d.airT ∧ d.airT ≤ 299.5 ∧
    306 ≤ d.procT ∧ d.procT ≤ 309.5 ∧ 1600 ≤ d.speed ∧ d.speed ≤ 2100 ∧
    22 ≤ d.torque ∧ d.torque ≤ 38 ∧ 0.15 ≤ d.deg ∧ d.deg ≤ 0.3
  else if initial_condition = "risk" then
    165 ≤ d.wear ∧ d.wear ≤ 185 ∧ 301 ≤ d.airT ∧ d.airT ≤ 303 ∧
    311.2 ≤ d.procT ∧ d.procT ≤ 312.8 ∧ 1240 ≤ d.speed ∧ d.speed ≤ 1300 ∧
    63 ≤ d.torque ∧ d.torque ≤ 68 ∧ 0.2 ≤ d.deg ∧ d.deg ≤ 0.35
  else if initial_condition = "maintenance" then
    180 ≤ d.wear ∧ d.wear ≤ 220 ∧ 301 ≤ d.airT ∧ d.airT ≤ 303.5 ∧
    311 ≤ d.procT ∧ d.procT ≤ 313 ∧ 1220 ≤ d.speed ∧ d.speed ≤ 1320 ∧
    62 ≤ d.torque ∧ d.torque ≤ 70 ∧ 0.2 ≤ d.deg ∧ d.deg ≤ 0.35
  else
    5 ≤ d.wear ∧ d.wear ≤ 40 ∧ 296 ≤ d.airT ∧ d.airT ≤ 300 ∧
    306 ≤ d.procT ∧ d.procT ≤ 310 ∧ 1500 ≤ d.speed ∧ d.speed ≤ 2000 ∧
    25 ≤ d.torque ∧ d.torque ≤ 40 ∧ 0.2 ≤ d.deg ∧ d.deg ≤ 0.4

instance (c : String) (d : InitDraws) : Decidable (InitDrawsValid c d) := by
  unfold InitDrawsValid
  infer_instance

/-- One reading emitted by `MachineSimulator.generate_sensor_data`. The
timestamp models the value `datetime.now()` returned for this reading. -/
structure Reading where
  machine_id : String
  mtype : String
  air_temperature : ℚ
  process_temperature : ℚ
  rotational_speed : ℤ
  torque : ℚ
  tool_wear : ℤ
  timestamp : ℕ
  operating_mode : String
  cycles : ℕ
  deriving DecidableEq

/-- The random draws consumed by one `generate_sensor_data` call:
`wearU = uniform(0.1, 0.3)`, the Gaussian noises (unbounded), the
`uniform(8, 12)` process-temperature offset, the conditional
`uniform(0, 3)` torque bump, and the three drift deltas applied every
100th cycle. -/
structure GenDraws where
  wearU : ℚ
  airNoise : ℚ
  procU : ℚ
  procNoise : ℚ
  speedNoise : ℚ
  torqueBump : ℚ
  torqueNoise : ℚ
  airDrift : ℚ
  speedDrift : ℚ
  torqueDrift : ℚ
  deriving DecidableEq

/-- Ranges of the bounded (uniform) draws of `generate_sensor_data`; the
Gaussian noises are unconstrained. -/
def GenDrawsValid (d : GenDraws) : Prop :=
  0.1 ≤ d.wearU ∧ d.wearU ≤ 0.3 ∧ 8 ≤ d.procU ∧ d.procU ≤ 12 ∧
  0 ≤ d.torqueBump ∧ d.torqueBump ≤ 3 ∧
  -0.1 ≤ d.airDrift ∧ d.airDrift ≤ 0.1 ∧
  -5 ≤ d.speedDrift ∧ d.speedDrift ≤ 5 ∧
  -0.5 ≤ d.torqueDrift ∧ d.torqueDrift ≤ 0.5

instance (d : GenDraws) : Decidable (GenDrawsValid d) := by
  unfold GenDrawsValid
  infer_instance

/-- `MachineSimulator.generate_sensor_data`, with the draws and the
`datetime.now()` value passed explicitly; returns the updated machine
state and the emitted reading. -/
def generate_sensor_data (s : MachineState) (d : GenDraws) (now : ℕ) :
    MachineState × Reading :=
  let cycles := s.cycles + 1
  let wear_increment := s.degradation_rate * d.wearU
  let tool_wear := min (s.tool_wear + wear_increment) 250
  let air_temp := clip (s.air_temp_baseline + d.airNoise) 295 304
  let wear_factor := tool_wear / 250
  let process_temp_base := air_temp + d.procU
  let process_temp_noise := d.procNoise + wear_factor * 1
  let process_temp := clip (process_temp_base + process_temp_noise) 305 313
  let speed := clip (s.speed_baseline + d.speedNoise) 1200 2500
  let base_torque := s.torque_baseline + (if 6/10 < wear_factor then d.torqueBump else 0)
  let torque := clip (base_torque + d.torqueNoise) 15 70
  let drift := cycles % 100 = 0
  ({ s with
      cycles := cycles,
      tool_wear := tool_wear,
      air_temp_baseline :=
        if drift then s.air_temp_baseline + d.airDrift else s.air_temp_baseline,
      speed_baseline :=
        if drift then s.speed_baseline + d.speedDrift else s.speed_baseline,
      torque_baseline :=
        if drift then s.torque_baseline + d.torqueDrift else s.torque_baseline },
   { machine_id := s.machine_id, mtype := s.machine_type,
     air_temperature := pyRound1 air_temp,
     process_temperature := pyRound1 process_temp,
     rotational_speed := pyInt speed,
     torque := pyRound1 torque,
     tool_wear := pyInt tool_wear,
     timestamp := now,
     operating_mode := s.operating_mode,
     cycles := cycles })

/-- The draws of `MachineSimulator.reset_tool_wear`:
`uniform(0, 20)` fresh wear and `uniform(0.2, 0.5)` degradation rate. -/
structure ResetDraws where
  wear : ℚ
  deg : ℚ
  deriving DecidableEq

/-- Ranges of the draws of `reset_tool_wear`. -/
def ResetDrawsValid (d : ResetDraws) : Prop :=
  0 ≤ d.wear ∧ d.wear ≤ 20 ∧ 0.2 ≤ d.deg ∧ d.deg ≤ 0.5

instance (d : ResetDraws) : Decidable (ResetDrawsValid d) := by
  unfold ResetDrawsValid
  infer_instance

/-- `MachineSimulator.reset_tool_wear`. -/
def reset_tool_wear (s : MachineState) (d : ResetDraws) : MachineState :=
  { s with tool_wear := d.wear, degradation_rate := d.deg }

/-- State invariant maintained by the simulator: wear stays in [0, 250]
and the degradation rate is nonnegative. -/
def WearInv (s : MachineState) : Prop :=
  0 ≤ s.tool_wear ∧ s.tool_wear ≤ 250 ∧ 0 ≤ s.degradation_rate

/-- The clamp invariant of the spec: the five sensor values of a reading
lie inside config.SENSOR_RANGES. -/
def ReadingInRange (r : Reading) : Prop :=
  295 ≤ r.air_temperature ∧ r.air_temperature ≤ 304 ∧
  305 ≤ r.process_temperature ∧ r.process_temperature ≤ 313 ∧
  1200 ≤ r.rotational_speed ∧ r.rotational_speed ≤ 2500 ∧
  15 ≤ r.torque ∧ r.torque ≤ 70 ∧
  0 ≤ r.tool_wear ∧ r.tool_wear ≤ 250

instance (s : MachineState) : Decidable (WearInv s) := by
  unfold WearInv
  infer_instance

instance (r : Reading) : Decidable (ReadingInRange r) := by
  unfold ReadingInRange
  infer_instance

/-- A sequence of `generate_sensor_data` calls on one machine, each with
its draws and its `datetime.now()` value; returns the emitted readings. -/
def runGen : MachineState → List (GenDraws × ℕ) → List Reading
  | _, [] => []
  | s, (d, t) :: rest =>
      let st := generate_sensor_data s d t
      st.2 :: runGen st.1 rest

/-- Python exceptions raised in the inference path. -/
inductive PyError
  | keyError (field : String)
  | typeError
  | indexError
  | valueError (msg : String)
  deriving DecidableEq

/-- Replace the first machine with the given id (the in-place mutation of
the matched simulator inside the fleet list). -/
def updateMachine : List MachineState → String → MachineState → List MachineState
  | [], _, _ => []
  | m :: rest, mid, m2 =>
      if m.machine_id = mid then m2 :: rest else m :: updateMachine rest mid m2

/-- The all-machines branch of `DataSimulator.generate_data`: one
`generate_sensor_data` call per machine in list order, each consuming its
own draws `ds k` and its own `datetime.now()` value `clk k` (the calls are
successive, so the clock index advances by one per machine). -/
def genAll : List MachineState → (ℕ → GenDraws) → (ℕ → ℕ) → ℕ →
    List MachineState × List Reading
  | [], _, _, _ => ([], [])
  | m :: rest, ds, clk, k =>
      let st := generate_sensor_data m (ds k) (clk k)
      let tail := genAll rest ds clk (k + 1)
      (st.1 :: tail.1, st.2 :: tail.2)

/-- `DataSimulator.generate_data(machine_id=None)`. The Python guard is
`if machine_id:`, so `None` and the empty string both take the
all-machines branch; a nonempty id is looked up with `next(...)` and an
absent id raises `ValueError(f"Machine {machine_id} not found")`. -/
def generate_data (ms : List MachineState) (machine_id : Option String)
    (ds : ℕ → GenDraws) (clk : ℕ → ℕ) :
    Except PyError (List MachineState × (Reading ⊕ List Reading)) :=
  match machine_id with
  | some mid =>
      if mid = "" then
        let all := genAll ms ds clk 0
        .ok (all.1, .inr all.2)
      else
        match ms.find? (fun m => m.machine_id = mid) with
        | some m =>
            let st := generate_sensor_data m (ds 0) (clk 0)
            .ok (updateMachine ms mid st.1, .inl st.2)
        | none => .error (.valueError ("Machine " ++ mid ++ " not found"))
  | none =>
      let all := genAll ms ds clk 0
      .ok (all.1, .inr all.2)

/-- `DataSimulator.perform_maintenance`: returns whether the machine was
found, together with the (possibly updated) fleet. -/
def perform_maintenance (ms : List MachineState) (machine_id : String)
    (d : ResetDraws) : Bool × List MachineState :=
  match ms.find? (fun m => m.machine_id = machine_id) with
  | some m => (true, updateMachine ms machine_id (reset_tool_wear m d))
  | none => (false, ms)

/-- The sensor dictionary consumed by `ModelInference.preprocess_input`:
the numeric entries, plus the string-valued 'Type' key (modelled apart
because Python dict values are heterogeneous). -/
structure SensorInput where
  type_field : Option String
  entries : List (String × ℚ)
  deriving DecidableEq

/-- `sensor_data.get(k)` restricted to the numeric keys. -/
def dictGet (d : SensorInput) (k : String) : Option ℚ :=
  (d.entries.find? (fun e => e.1 = k)).map Prod.snd

/-- Python truthiness of a number-or-None value: `None` and `0` are falsy. -/
def pyTruthyNum : Option ℚ → Bool
  | none => false
  | some q => decide (q ≠ 0)

/-- Python `a or b` on number-or-None values. -/
def pyOr (a b : Option ℚ) : Option ℚ := if pyTruthyNum a then a else b

/-- The per-sensor fallback lookup
`sensor_data.get(k1) or sensor_data.get(k2)` in `preprocess_input`. -/
def resolveField (d : SensorInput) (k1 k2 : String) : Option ℚ :=
  pyOr (dictGet d k1) (dictGet d k2)

/-- `ModelInference.preprocess_input`. A missing 'Type' key raises
`KeyError('Type')`; `temp_diff` and then `power` raise `TypeError` when an
operand is `None`; a `None` tool wear flows into the feature row
untouched. The returned vector is the feature row reindexed by
`feature_columns` (the label encoder is passed as a total function; its
closed-vocabulary failure mode is outside the claims considered here). -/
def preprocess_input (enc : String → ℤ) (feature_columns : List String)
    (d : SensorInput) : Except PyError (List (Option ℚ)) :=
  match d.type_field with
  | none => .error (.keyError "Type")
  | some ty =>
      let type_encoded := enc ty
      let air_temp := resolveField d "Air temperature [K]" "Air_temperature_K"
      let process_temp := resolveField d "Process temperature [K]" "Process_temperature_K"
      let speed := resolveField d "Rotational speed [rpm]" "Rotational_speed_rpm"
      let torque := resolveField d "Torque [Nm]" "Torque_Nm"
      let tool_wear := resolveField d "Tool wear [min]" "Tool_wear_min"
      match process_temp, air_temp with
      | some pt, some av =>
          match torque, speed with
          | some tq, some sp =>
              let temp_diff := pt - av
              let power := tq * sp / 1000
              let features : List (String × Option ℚ) :=
                [("Air_temperature_K", air_temp),
                 ("Process_temperature_K", process_temp),
                 ("Rotational_speed_rpm", speed),
                 ("Torque_Nm", torque),
                 ("Tool_wear_min", tool_wear),
                 ("Type_encoded", some (type_encoded : ℚ)),
                 ("Temp_diff", some temp_diff),
                 ("Power", some power)]
              .ok (feature_columns.map
                (fun c => ((features.find? (fun e => e.1 = c)).map Prod.snd).join))
          | _, _ => .error .typeError
      | _, _ => .error .typeError

/-- The frozen classifier's output on one feature vector: the predicted
label and the two class probabilities `predict_proba` returns. -/
structure ModelOutput where
  label : ℤ
  prob_normal : ℚ
  prob_failure : ℚ
  deriving DecidableEq

/-- One prediction record assembled by `ModelInference.predict`. -/
structure PredictionResult where
  machine_id : String
  prediction : ℤ
  failure_probability : ℚ
  normal_probability : ℚ
  health_status : String
  sensor_data : Reading
  alert : Bool
  deriving DecidableEq

/-- The result-record construction inside the loop of
`ModelInference.predict`: the band and the alert are both computed from
the raw failure probability, the stored probabilities are rounded to four
digits, and the reading is echoed back. -/
def mkPredictionResult (out : ModelOutput) (r : Reading) : PredictionResult :=
  { machine_id := r.machine_id,
    prediction := out.label,
    failure_probability := pyRound4 out.prob_failure,
    normal_probability := pyRound4 out.prob_normal,
    health_status := get_health_status out.prob_failure,
    sensor_data := r,
    alert := decide (FAILURE_THRESHOLD ≤ out.prob_failure) }

/-- The two shapes `ModelInference.predict` can return: a bare record or a
list of records. -/
inductive PredictOutput
  | single (p : PredictionResult)
  | multiple (ps : List PredictionResult)
  deriving DecidableEq

/-- A simulator reading viewed as the dictionary `predict` receives: the
bracketed-unit sensor keys plus the 'Type' key (the remaining keys of the
reading are not read by `preprocess_input`). -/
def readingToDict (r : Reading) : SensorInput :=
  { type_field := some r.mtype,
    entries :=
      [("Air temperature [K]", r.air_temperature),
       ("Process temperature [K]", r.process_temperature),
       ("Rotational speed [rpm]", (r.rotational_speed : ℚ)),
       ("Torque [Nm]", r.torque),
       ("Tool wear [min]", (r.tool_wear : ℚ))] }

/-- The loop of `ModelInference.predict`: preprocess and classify each
reading in order; the first exception aborts the whole call. -/
def predictList (enc : String → ℤ) (feature_columns : List String)
    (clf : List (Option ℚ) → ModelOutput) : List Reading →
    Except PyError (List PredictionResult)
  | [] => .ok []
  | r :: rest =>
      match preprocess_input enc feature_columns (readingToDict r) with
      | .error e => .error e
      | .ok fv =>
          match predictList enc feature_columns clf rest with
          | .error e => .error e
          | .ok ps => .ok (mkPredictionResult (clf fv) r :: ps)

/-- `ModelInference.predict`: a dict input is wrapped into a singleton
list; the result is the list when more than one prediction was produced,
the bare first record otherwise (`predictions[0]` raises `IndexError` on
an empty input list). -/
def predict (enc : String → ℤ) (feature_columns : List String)
    (clf : List (Option ℚ) → ModelOutput) (input : Reading ⊕ List Reading) :
    Except PyError PredictOutput :=
  let rs := match input with
    | .inl r => [r]
    | .inr l => l
  match predictList enc feature_columns clf rs with
  | .error e => .error e
  | .ok ps =>
      if 1 < ps.length then .ok (.multiple ps)
      else match ps with
        | [p] => .ok (.single p)
        | _ => .error .indexError

/-- `MonitoringService.get_real_time_predictions`: generate readings for
the whole fleet, then predict on the batch. -/
def get_real_time_predictions (ms : List MachineState) (ds : ℕ → GenDraws)
    (clk : ℕ → ℕ) (enc : String → ℤ) (feature_columns : List String)
    (clf : List (Option ℚ) → ModelOutput) :
    List MachineState × Except PyError PredictOutput :=
  match generate_data ms none ds clk with
  | .error e => (ms, .error e)
  | .ok (ms2, readings) => (ms2, predict enc feature_columns clf readings)

/-- The timestamps carried by the results of one prediction batch. -/
def batchTimestamps : PredictOutput → List ℕ
  | .single p => [p.sensor_data.timestamp]
  | .multiple ps => ps.map (fun p => p.sensor_data.timestamp)

/-- Timestamps of a monitoring call's outcome (empty on an exception). -/
def resultTimestamps (x : List MachineState × Except PyError PredictOutput) :
    List ℕ :=
  match x.2 with
  | .ok out => batchTimestamps out
  | .error _ => []

/-- Extract the record list of a successful `predictList` call. -/
def forceOk (e : Except PyError (List PredictionResult)) :
    List PredictionResult :=
  match e with
  | .ok ps => ps
  | .error _ => []

/-- Concrete initial draws inside the "healthy" ranges. -/
def iD0 : InitDraws := ⟨20, 297, 307, 1800, 30, 1/5⟩

/-- Concrete "healthy" initial draws at the low end of the wear range. -/
def iD5 : InitDraws := ⟨5, 297, 307, 1800, 30, 1/5⟩

/-- Concrete initial draws inside the "risk" ranges. -/
def iDrisk : InitDraws := ⟨170, 302, 312, 1250, 65, 3/10⟩

/-- Concrete generation draws inside the uniform ranges (zero noise). -/
def gd0 : GenDraws := ⟨1/5, 0, 10, 0, 0, 1, 0, 0, 0, 0⟩

/-- Concrete maintenance-reset draws inside the uniform ranges. -/
def rd19 : ResetDraws := ⟨19, 3/10⟩

/-- Constant draw stream. -/
def dsConst : ℕ → GenDraws := fun _ => gd0

/-- A clock whose successive readings are distinct (it advances by one
tick per call, as a real clock may). -/
def clkId : ℕ → ℕ := fun n => n

/-- The label encoder fitted on the training data: `LabelEncoder` sorts
the vocabulary, so H ↦ 0, L ↦ 1, M ↦ 2. -/
def enc0 : String → ℤ := fun t => if t = "H" then 0 else if t = "L" then 1 else 2

/-- A concrete frozen classifier (constant output). -/
def clf0 : List (Option ℚ) → ModelOutput := fun _ => ⟨0, 7/10, 3/10⟩

/-- A concrete healthy machine. -/
def m0 : MachineState := mkMachineState "M001" "L" "healthy" iD0

/-- A concrete machine with wear at the bottom of the healthy range. -/
def m5 : MachineState := mkMachineState "M001" "L" "healthy" iD5

/-- A concrete at-risk machine. -/
def mRisk : MachineState := mkMachineState "M002" "M" "risk" iDrisk

/-- A complete sensor dictionary (the sample input of
`model_inference.py`). -/
def dFull : SensorInput :=
  ⟨some "M",
   [("Air temperature [K]", 298), ("Process temperature [K]", 308),
    ("Rotational speed [rpm]", 1551), ("Torque [Nm]", 42),
    ("Tool wear [min]", 150)]⟩

/-- The same dictionary with the tool-wear field missing entirely. -/
def dNoWear : SensorInput :=
  ⟨some "M",
   [("Air temperature [K]", 298), ("Process temperature [K]", 308),
    ("Rotational speed [rpm]", 1551), ("Torque [Nm]", 42)]⟩

/-- The same dictionary with tool wear 0 under the bracketed-unit key. -/
def dWear0 : SensorInput :=
  ⟨some "M",
   [("Air temperature [K]", 298), ("Process temperature [K]", 308),
    ("Rotational speed [rpm]", 1551), ("Torque [Nm]", 42),
    ("Tool wear [min]", 0)]⟩

/-- The same dictionary with tool wear 0 under the normalized key. -/
def dWear0norm : SensorInput :=
  ⟨some "M",
   [("Air temperature [K]", 298), ("Process temperature [K]", 308),
    ("Rotational speed [rpm]", 1551), ("Torque [Nm]", 42),
    ("Tool_wear_min", 0)]⟩

/-- A concrete reading. -/
def r01 : Reading := ⟨"M001", "L", 298, 308, 1551, 42, 150, 0, "normal", 1⟩

/-- A second concrete reading. -/
def r02 : Reading := ⟨"M002", "M", 300, 309, 1400, 50, 200, 1, "normal", 1⟩

/-- A classifier output whose failure probability is exactly the
threshold. -/
def out06 : ModelOutput := ⟨1, 2/5, 3/5⟩

/-- Whether a `generate_data` call succeeded with the all-machines
(list-of-readings) result. -/
def isOkAll : Except PyError (List MachineState × (Reading ⊕ List Reading)) → Bool
  | .ok (_, .inr _) => true
  | _ => false

/-- clip keeps a value inside a nonempty interval. -/
theorem clip_bounds (x lo hi : ℚ) (h : lo ≤ hi) :
    lo ≤ clip x lo hi ∧ clip x lo hi ≤ hi := by
  unfold clip
  exact ⟨le_min (le_max_right x lo) h, min_le_right _ _⟩

/-- A witness for `clip_bounds` at a concrete input. -/
theorem clip_bounds_witness : (295 : ℚ) ≤ 304 ∧ (295 : ℚ) ≤ clip 500 295 304 ∧ clip 500 295 304 ≤ 304 :=
  ⟨by norm_num, (clip_bounds 500 295 304 (by norm_num)).1, (clip_bounds 500 295 304 (by norm_num)).2⟩

/-- Rounding never goes below an integer lower bound. -/
theorem le_pyRoundInt (a : ℤ) (q : ℚ) (h : (a : ℚ) ≤ q) : a ≤ pyRoundInt q := by
  unfold pyRoundInt
  dsimp only
  have hf : a ≤ ⌊q⌋ := Int.le_floor.mpr h
  split_ifs <;> omega

/-- Rounding never exceeds an integer upper bound. -/
theorem pyRoundInt_le (q : ℚ) (b : ℤ) (h : q ≤ b) : pyRoundInt q ≤ b := by
  unfold pyRoundInt
  dsimp only
  have hfq : (⌊q⌋ : ℚ) ≤ q := Int.floor_le q
  have hf : ⌊q⌋ ≤ b := by
    have : (⌊q⌋ : ℚ) ≤ (b : ℚ) := le_trans hfq h
    exact_mod_cast this
  split_ifs with h1 h2 h3
  · exact hf
  · by_contra hc
    push_neg at hc
    have hbf : (b : ℚ) ≤ (⌊q⌋ : ℚ) := by exact_mod_cast (by omega : b ≤ ⌊q⌋)
    have : q - (⌊q⌋ : ℚ) ≤ 0 := by linarith
    linarith
  · exact hf
  · by_contra hc
    push_neg at hc
    have hbf : (b : ℚ) ≤ (⌊q⌋ : ℚ) := by exact_mod_cast (by omega : b ≤ ⌊q⌋)
    have h0 : q - (⌊q⌋ : ℚ) ≤ 0 := by linarith
    push_neg at h1
    linarith

/-- Python `round(x, 1)` stays inside an interval with integer endpoints. -/
theorem pyRound1_bounds (a b : ℤ) (x : ℚ) (h1 : (a : ℚ) ≤ x) (h2 : x ≤ b) :
    (a : ℚ) ≤ pyRound1 x ∧ pyRound1 x ≤ b := by
  unfold pyRound1
  have hl : (10 * a : ℤ) ≤ pyRoundInt (x * 10) := by
    apply le_pyRoundInt
    push_cast
    linarith
  have hu : pyRoundInt (x * 10) ≤ (10 * b : ℤ) := by
    apply pyRoundInt_le
    push_cast
    linarith
  have hl2 : ((10 * a : ℤ) : ℚ) ≤ (pyRoundInt (x * 10) : ℚ) := by exact_mod_cast hl
  have hu2 : (pyRoundInt (x * 10) : ℚ) ≤ ((10 * b : ℤ) : ℚ) := by exact_mod_cast hu
  push_cast at hl2 hu2
  constructor <;> [linarith; linarith]

/-- A witness for `pyRound1_bounds` at a concrete input. -/
theorem pyRound1_bounds_witness :
    ((15 : ℤ) : ℚ) ≤ (37/2 : ℚ) ∧ (37/2 : ℚ) ≤ ((70 : ℤ) : ℚ) ∧
      ((15 : ℤ) : ℚ) ≤ pyRound1 (37/2) ∧ pyRound1 (37/2) ≤ ((70 : ℤ) : ℚ) :=
  ⟨by norm_num, by norm_num,
   (pyRound1_bounds 15 70 (37/2) (by norm_num) (by norm_num)).1,
   (pyRound1_bounds 15 70 (37/2) (by norm_num) (by norm_num)).2⟩

/-- Python `int` truncation stays inside an interval with integer
endpoints. -/
theorem pyInt_bounds (a b : ℤ) (x : ℚ) (h1 : (a : ℚ) ≤ x) (h2 : x ≤ b) :
    a ≤ pyInt x ∧ pyInt x ≤ b := by
  unfold pyInt
  split_ifs with h
  · refine ⟨Int.le_floor.mpr h1, ?_⟩
    have : (⌊x⌋ : ℚ) ≤ (b : ℚ) := le_trans (Int.floor_le x) h2
    exact_mod_cast this
  · refine ⟨?_, Int.ceil_le.mpr h2⟩
    have : (a : ℚ) ≤ (⌈x⌉ : ℚ) := le_trans h1 (Int.le_ceil x)
    exact_mod_cast this

/-- A witness for `pyInt_bounds` at a concrete input. -/
theorem pyInt_bounds_witness :
    ((0 : ℤ) : ℚ) ≤ (501/2 : ℚ) - 1 ∧ (501/2 : ℚ) - 1 ≤ ((250 : ℤ) : ℚ) ∧
      (0 : ℤ) ≤ pyInt ((501/2 : ℚ) - 1) ∧ pyInt ((501/2 : ℚ) - 1) ≤ 250 :=
  ⟨by norm_num, by norm_num,
   (pyInt_bounds 0 250 _ (by norm_num) (by norm_num)).1,
   (pyInt_bounds 0 250 _ (by norm_num) (by norm_num)).2⟩

/-- Rounding a clipped value to one digit stays in the (integer-endpoint)
clip interval. -/
theorem round1_clip (lo hi : ℚ) (a b : ℤ) (ha : lo = (a : ℚ)) (hb : hi = (b : ℚ))
    (hab : lo ≤ hi) (X : ℚ) :
    lo ≤ pyRound1 (clip X lo hi) ∧ pyRound1 (clip X lo hi) ≤ hi := by
  obtain ⟨h1, h2⟩ := clip_bounds X lo hi hab
  subst ha
  subst hb
  exact pyRound1_bounds a b _ h1 h2

/-- Truncating a clipped value stays in the (integer-endpoint) clip
interval. -/
theorem pyInt_clip (lo hi : ℚ) (a b : ℤ) (ha : lo = (a : ℚ)) (hb : hi = (b : ℚ))
    (hab : lo ≤ hi) (X : ℚ) :
    a ≤ pyInt (clip X lo hi) ∧ pyInt (clip X lo hi) ≤ b := by
  obtain ⟨h1, h2⟩ := clip_bounds X lo hi hab
  subst ha
  subst hb
  exact pyInt_bounds a b _ h1 h2

/-- The band table of `_get_health_status`, unrolled into the concrete
interval tests it performs in order. -/
theorem get_health_status_eq (p : ℚ) :
    get_health_status p =
      if 0 ≤ p ∧ p < 3/10 then "HEALTHY"
      else if 3/10 ≤ p ∧ p < 6/10 then "RISK"
      else if 6/10 ≤ p ∧ p < 1 then "MAINTENANCE REQUIRED"
      else "MAINTENANCE REQUIRED" := by
  simp only [get_health_status, HEALTH_STATUS, findStatus]
  split_ifs <;> decide

/-- A fresh machine satisfies the wear invariant, whatever the initial
condition. -/
theorem init_WearInv (mid mt cond : String) (d : InitDraws)
    (h : InitDrawsValid cond d) : WearInv (mkMachineState mid mt cond d) := by
  unfold InitDrawsValid at h
  unfold WearInv mkMachineState
  dsimp only
  split_ifs at h <;>
  · obtain ⟨h1, h2, -, -, -, -, -, -, -, -, h11, h12⟩ := h
    exact ⟨by linarith, by linarith, by linarith⟩

/-- One `generate_sensor_data` call preserves the wear invariant, never
decreases wear, and emits a reading whose five sensor values are inside
the configured ranges. -/
theorem generate_step (s : MachineState) (d : GenDraws) (t : ℕ)
    (hs : WearInv s) (hd : GenDrawsValid d) :
    WearInv (generate_sensor_data s d t).1 ∧
      s.tool_wear ≤ (generate_sensor_data s d t).1.tool_wear ∧
      ReadingInRange (generate_sensor_data s d t).2 := by
  obtain ⟨hw0, hw250, hdeg⟩ := hs
  obtain ⟨hu1, -, -, -, -, -, -, -, -, -, -, -⟩ := hd
  have hinc : 0 ≤ s.degradation_rate * d.wearU := mul_nonneg hdeg (by linarith)
  have htw0 : (0 : ℚ) ≤ min (s.tool_wear + s.degradation_rate * d.wearU) 250 :=
    le_min (by linarith) (by norm_num)
  have htw250 : min (s.tool_wear + s.degradation_rate * d.wearU) 250 ≤ 250 :=
    min_le_right _ _
  have htwmono : s.tool_wear ≤ min (s.tool_wear + s.degradation_rate * d.wearU) 250 :=
    le_min (by linarith) hw250
  unfold generate_sensor_data ReadingInRange WearInv
  dsimp only
  refine ⟨⟨htw0, htw250, hdeg⟩, htwmono, ?_, ?_, ?_, ?_, ?_, ?_, ?_, ?_, ?_, ?_⟩
  · exact (round1_clip 295 304 295 304 (by norm_num) (by norm_num) (by norm_num) _).1
  · exact (round1_clip 295 304 295 304 (by norm_num) (by norm_num) (by norm_num) _).2
  · exact (round1_clip 305 313 305 313 (by norm_num) (by norm_num) (by norm_num) _).1
  · exact (round1_clip 305 313 305 313 (by norm_num) (by norm_num) (by norm_num) _).2
  · exact (pyInt_clip 1200 2500 1200 2500 (by norm_num) (by norm_num) (by norm_num) _).1
  · exact (pyInt_clip 1200 2500 1200 2500 (by norm_num) (by norm_num) (by norm_num) _).2
  · exact (round1_clip 15 70 15 70 (by norm_num) (by norm_num) (by norm_num) _).1
  · exact (round1_clip 15 70 15 70 (by norm_num) (by norm_num) (by norm_num) _).2
  · exact (pyInt_bounds 0 250 _ (by exact_mod_cast htw0) (by exact_mod_cast htw250)).1
  · exact (pyInt_bounds 0 250 _ (by exact_mod_cast htw0) (by exact_mod_cast htw250)).2

/-- Every reading of a run from a wear-invariant state is in range. -/
theorem runGen_range (s : MachineState) (evs : List (GenDraws × ℕ))
    (hs : WearInv s) (hevs : ∀ e ∈ evs, GenDrawsValid e.1) :
    List.Forall ReadingInRange (runGen s evs) := by
  induction evs generalizing s with
  | nil => simp [runGen, List.Forall]
  | cons e rest ih =>
      obtain ⟨d, t⟩ := e
      have h1 := generate_step s d t hs (hevs (d, t) (by simp))
      simp only [runGen, List.forall_cons]
      exact ⟨h1.2.2, ih (generate_sensor_data s d t).1 h1.1
        (fun e he => hevs e (by simp [he]))⟩

/-- `genAll` produces one reading per machine. -/
theorem genAll_length (ms : List MachineState) (ds : ℕ → GenDraws)
    (clk : ℕ → ℕ) (k : ℕ) : (genAll ms ds clk k).2.length = ms.length := by
  induction ms generalizing k with
  | nil => rfl
  | cons m rest ih => simp [genAll, ih (k + 1)]

/-- In a fleet-wide generation, the i-th reading is stamped with the
clock value of the i-th successive `datetime.now()` call. -/
theorem genAll_timestamps (ms : List MachineState) (ds : ℕ → GenDraws)
    (clk : ℕ → ℕ) (k : ℕ) :
    (genAll ms ds clk k).2.map (fun r => r.timestamp) =
      (List.range ms.length).map (fun i => clk (k + i)) := by
  induction ms generalizing k with
  | nil => rfl
  | cons m rest ih =>
      simp only [genAll, List.map_cons, List.length_cons,
        List.range_succ_eq_map, List.map_map, ih (k + 1)]
      refine congrArg₂ _ ?_ ?_
      · show clk k = clk (k + 0)
        rw [Nat.add_zero]
      · refine List.map_congr_left ?_
        intro i _
        show clk (k + 1 + i) = clk (k + (i + 1))
        rw [Nat.add_assoc, Nat.add_comm 1 i]

/-- A successful prediction loop yields one record per reading. -/
theorem predictList_length (enc : String → ℤ) (cols : List String)
    (clf : List (Option ℚ) → ModelOutput) (rs : List Reading)
    (ps : List PredictionResult) (h : predictList enc cols clf rs = .ok ps) :
    ps.length = rs.length := by
  induction rs generalizing ps with
  | nil =>
      simp only [predictList] at h
      cases h
      rfl
  | cons r rest ih =>
      simp only [predictList] at h
      cases hpre : preprocess_input enc cols (readingToDict r) with
      | error e => rw [hpre] at h; cases h
      | ok fv =>
          rw [hpre] at h
          cases hrec : predictList enc cols clf rest with
          | error e => rw [hrec] at h; cases h
          | ok qs =>
              rw [hrec] at h
              cases h
              simp [ih qs hrec]

/-- C1: for every probability p in [0,1] the health-status classification
is total and deterministic (it is a function); p in [0, 0.3) yields the
healthy band, p in [0.3, 0.6) the risk band, and p in [0.6, 1] the
maintenance-required band, the interior boundaries 0.3 and 0.6 belonging
to the higher band and 1 landing in the last band (via the default, which
names the same band whenever no configured interval matches). -/
theorem C1_health_bands (p : ℚ) (h0 : 0 ≤ p) (h1 : p ≤ 1) :
    (p < 3/10 → get_health_status p = "HEALTHY") ∧
    (3/10 ≤ p → p < 6/10 → get_health_status p = "RISK") ∧
    (6/10 ≤ p → get_health_status p = "MAINTENANCE REQUIRED") ∧
    (findStatus p HEALTH_STATUS = none →
      get_health_status p = "MAINTENANCE REQUIRED") := by
  rw [get_health_status_eq]
  refine ⟨fun h => ?_, fun ha hb => ?_, fun h => ?_, fun h => ?_⟩
  · rw [if_pos ⟨h0, h⟩]
  · rw [if_neg (fun hc => by linarith [hc.2]), if_pos ⟨ha, hb⟩]
  · rw [if_neg (fun hc => by linarith [hc.2]), if_neg (fun hc => by linarith [hc.2])]
    split_ifs <;> rfl
  · rw [← get_health_status_eq]
    unfold get_health_status
    rw [h]
    rfl

/-- Witness for C1 at the boundary inputs 0.3 and 1. -/
theorem C1_health_bands_witness :
    (0 : ℚ) ≤ 3/10 ∧ (3/10 : ℚ) ≤ 1 ∧ get_health_status (3/10) = "RISK" ∧
      get_health_status 1 = "MAINTENANCE REQUIRED" :=
  ⟨by norm_num, by norm_num,
   (C1_health_bands (3/10) (by norm_num) (by norm_num)).2.1 (by norm_num) (by norm_num),
   (C1_health_bands 1 (by norm_num) (by norm_num)).2.2.1 (by norm_num)⟩

/-- C2: in every prediction record, the alert flag is true exactly when
the raw failure probability reaches the configured threshold 0.6, and
this is computed from the probability alone (independently of the band
table); at probability exactly 0.6 both alert = true and the band is
MAINTENANCE REQUIRED. -/
theorem C2_alert_threshold (out : ModelOutput) (r : Reading) :
    ((mkPredictionResult out r).alert = true ↔
      FAILURE_THRESHOLD ≤ out.prob_failure) ∧
    (out.prob_failure = 6/10 →
      (mkPredictionResult out r).alert = true ∧
      (mkPredictionResult out r).health_status = "MAINTENANCE REQUIRED") := by
  constructor
  · simp [mkPredictionResult]
  · intro h
    refine ⟨by simp [mkPredictionResult, FAILURE_THRESHOLD, h], ?_⟩
    show get_health_status out.prob_failure = "MAINTENANCE REQUIRED"
    rw [h, get_health_status_eq]
    norm_num

/-- Witness for C2: a record built at probability exactly 0.6. -/
theorem C2_alert_threshold_witness :
    (mkPredictionResult out06 r01).alert = true ∧
      (mkPredictionResult out06 r01).health_status = "MAINTENANCE REQUIRED" :=
  (C2_alert_threshold out06 r01).2 (by norm_num [out06])

/-- C3: from any valid initial condition (healthy, risk, maintenance or
the default branch), every reading of every sequence of
`generate_sensor_data` calls has its five sensor values inside the
configured physical ranges. -/
theorem C3_clamp_invariant (mid mt cond : String) (d0 : InitDraws)
    (h0 : InitDrawsValid cond d0) (evs : List (GenDraws × ℕ))
    (hevs : ∀ e ∈ evs, GenDrawsValid e.1) :
    List.Forall ReadingInRange (runGen (mkMachineState mid mt cond d0) evs) :=
  runGen_range _ evs (init_WearInv mid mt cond d0 h0) hevs

/-- Witness for C3: a two-step run of a concrete healthy machine. -/
theorem C3_clamp_invariant_witness :
    InitDrawsValid "healthy" iD0 ∧
      List.Forall ReadingInRange
        (runGen (mkMachineState "M001" "L" "healthy" iD0) [(gd0, 0), (gd0, 1)]) :=
  ⟨by norm_num [InitDrawsValid, iD0],
   C3_clamp_invariant "M001" "L" "healthy" iD0 (by norm_num [InitDrawsValid, iD0])
     [(gd0, 0), (gd0, 1)]
     (by
       intro e he
       simp only [List.mem_cons, List.not_mem_nil, or_false] at he
       rcases he with h | h <;> subst h <;> norm_num [GenDrawsValid, gd0])⟩

/-- C4 (amended): across generate calls wear is monotonically
non-decreasing and never exceeds 250; `reset_tool_wear` replaces the wear
by its fresh uniform(0, 20) draw, so it strictly decreases the wear
whenever the current wear exceeds 20 (but can increase it when the
current wear is below the drawn value); generate never decreases wear, so
reset is the only operation that can. -/
theorem C4_wear_monotonic_amended :
    (∀ (s : MachineState) (d : GenDraws) (t : ℕ), WearInv s → GenDrawsValid d →
        s.tool_wear ≤ (generate_sensor_data s d t).1.tool_wear ∧
        (generate_sensor_data s d t).1.tool_wear ≤ 250) ∧
    (∀ (s : MachineState) (d : ResetDraws), ResetDrawsValid d →
        20 < s.tool_wear → (reset_tool_wear s d).tool_wear < s.tool_wear) ∧
    (∀ (s : MachineState) (d : ResetDraws),
        (reset_tool_wear s d).tool_wear = d.wear) := by
  refine ⟨fun s d t hs hd => ?_, fun s d hd h20 => ?_, fun s d => rfl⟩
  · have h := generate_step s d t hs hd
    exact ⟨h.2.1, h.1.2.1⟩
  · obtain ⟨-, hw20, -, -⟩ := hd
    show d.wear < s.tool_wear
    linarith

/-- Witness for C4 at concrete machines and draws. -/
theorem C4_wear_monotonic_witness :
    (m0.tool_wear ≤ (generate_sensor_data m0 gd0 0).1.tool_wear ∧
      (generate_sensor_data m0 gd0 0).1.tool_wear ≤ 250) ∧
    (reset_tool_wear mRisk rd19).tool_wear < mRisk.tool_wear :=
  ⟨C4_wear_monotonic_amended.1 m0 gd0 0
     (init_WearInv "M001" "L" "healthy" iD0 (by norm_num [InitDrawsValid, iD0]))
     (by norm_num [GenDrawsValid, gd0]),
   C4_wear_monotonic_amended.2.1 mRisk rd19
     (by norm_num [ResetDrawsValid, rd19])
     (by norm_num [mRisk, mkMachineState, iDrisk])⟩

/-- Counterexample to C4 as stated: a freshly initialized healthy machine
with wear 5 (a valid initial condition), one generate call (wear 5.04),
then a maintenance reset whose valid uniform(0, 20) draw is 19 — the
reset increases the wear instead of strictly decreasing it. -/
theorem C4_strict_decrease_cex :
    InitDrawsValid "healthy" iD5 ∧ GenDrawsValid gd0 ∧ ResetDrawsValid rd19 ∧
    (generate_sensor_data m5 gd0 0).1.tool_wear = 126/25 ∧
    (reset_tool_wear (generate_sensor_data m5 gd0 0).1 rd19).tool_wear = 19 ∧
    ¬((reset_tool_wear (generate_sensor_data m5 gd0 0).1 rd19).tool_wear <
        (generate_sensor_data m5 gd0 0).1.tool_wear) := by
  have hw : (generate_sensor_data m5 gd0 0).1.tool_wear = 126/25 := by
    show min (m5.tool_wear + m5.degradation_rate * gd0.wearU) 250 = 126/25
    norm_num [m5, mkMachineState, iD5, gd0, min_def]
  refine ⟨by norm_num [InitDrawsValid, iD5], by norm_num [GenDrawsValid, gd0],
    by norm_num [ResetDrawsValid, rd19], hw, rfl, ?_⟩
  show ¬(rd19.wear < (generate_sensor_data m5 gd0 0).1.tool_wear)
  rw [hw]
  norm_num [rd19]

/-- C5 (amended): for every nonempty machine id absent from the fleet,
`generate_data` fails with the ValueError naming the machine (the empty
string, although also absent, is falsy and takes the all-machines branch
instead — see the counterexample); `perform_maintenance` on an absent id
returns false without error and leaves the fleet unchanged, and on a
present id returns true. -/
theorem C5_unknown_id_amended :
    (∀ (ms : List MachineState) (mid : String) (ds : ℕ → GenDraws) (clk : ℕ → ℕ),
        mid ≠ "" → (∀ m ∈ ms, m.machine_id ≠ mid) →
        generate_data ms (some mid) ds clk =
          .error (.valueError ("Machine " ++ mid ++ " not found"))) ∧
    (∀ (ms : List MachineState) (mid : String) (d : ResetDraws),
        (∀ m ∈ ms, m.machine_id ≠ mid) →
        perform_maintenance ms mid d = (false, ms)) ∧
    (∀ (ms : List MachineState) (mid : String) (d : ResetDraws),
        (∃ m ∈ ms, m.machine_id = mid) →
        (perform_maintenance ms mid d).1 = true) := by
  refine ⟨fun ms mid ds clk hne habs => ?_, fun ms mid d habs => ?_,
    fun ms mid d hex => ?_⟩
  · have hf : ms.find? (fun m => m.machine_id = mid) = none := by
      rw [List.find?_eq_none]
      intro m hm
      simpa using habs m hm
    unfold generate_data
    dsimp only
    rw [if_neg hne, hf]
  · have hf : ms.find? (fun m => m.machine_id = mid) = none := by
      rw [List.find?_eq_none]
      intro m hm
      simpa using habs m hm
    unfold perform_maintenance
    rw [hf]
  · obtain ⟨m, hm, hid⟩ := hex
    unfold perform_maintenance
    cases hf : ms.find? (fun m => m.machine_id = mid) with
    | some m2 => rfl
    | none =>
        rw [List.find?_eq_none] at hf
        exact absurd (by simpa using hid) (by simpa using hf m hm)

/-- Witness for C5 on a one-machine fleet: the absent id M999 and the
present id M001. -/
theorem C5_unknown_id_witness :
    generate_data [m0] (some "M999") dsConst clkId =
      .error (.valueError ("Machine " ++ "M999" ++ " not found")) ∧
    perform_maintenance [m0] "M999" rd19 = (false, [m0]) ∧
    (perform_maintenance [m0] "M001" rd19).1 = true :=
  ⟨C5_unknown_id_amended.1 [m0] "M999" dsConst clkId (by decide)
     (by
       intro m hm
       simp only [List.mem_singleton] at hm
       subst hm
       decide),
   C5_unknown_id_amended.2.1 [m0] "M999" rd19
     (by
       intro m hm
       simp only [List.mem_singleton] at hm
       subst hm
       decide),
   C5_unknown_id_amended.2.2 [m0] "M001" rd19 ⟨m0, by simp, rfl⟩⟩

/-- Counterexample to C5 as stated: the empty string is a machine id that
exists for no machine in the fleet, yet `generate_data` does not fail —
it falls into the all-machines branch and succeeds with a list of
readings. -/
theorem C5_empty_id_cex :
    m0.machine_id ≠ "" ∧
      isOkAll (generate_data [m0] (some "") dsConst clkId) = true :=
  ⟨by decide, rfl⟩

/-- C10: the empty-string machine id is falsy, so `generate_data` treats
it exactly like the absent (None) argument: no NotFound error, and one
reading per machine of the whole fleet. -/
theorem C10_empty_id_fleet (ms : List MachineState) (ds : ℕ → GenDraws)
    (clk : ℕ → ℕ) :
    generate_data ms (some "") ds clk = generate_data ms none ds clk ∧
    generate_data ms (some "") ds clk =
      .ok ((genAll ms ds clk 0).1, .inr (genAll ms ds clk 0).2) ∧
    (genAll ms ds clk 0).2.length = ms.length := by
  refine ⟨rfl, rfl, genAll_length ms ds clk 0⟩

/-- C6 (amended): a missing 'Type' key fails with a KeyError naming
'Type'; a missing temperature field fails with an unnamed TypeError at
the `temp_diff` subtraction, and a missing speed or torque field with an
unnamed TypeError at the `power` product; a missing tool-wear field does
not fail at all — it flows into the feature row as a null; for inputs
whose five fallback lookups resolve, the output vector is assembled
strictly in the metadata's feature-column order. -/
theorem C6_missing_field_amended :
    (∀ (enc : String → ℤ) (cols : List String) (d : SensorInput),
        d.type_field = none →
        preprocess_input enc cols d = .error (.keyError "Type")) ∧
    (∀ (enc : String → ℤ) (d : SensorInput) (ty : String) (av pt sp tq : ℚ)
        (two : Option ℚ),
        d.type_field = some ty →
        resolveField d "Air temperature [K]" "Air_temperature_K" = some av →
        resolveField d "Process temperature [K]" "Process_temperature_K" = some pt →
        resolveField d "Rotational speed [rpm]" "Rotational_speed_rpm" = some sp →
        resolveField d "Torque [Nm]" "Torque_Nm" = some tq →
        resolveField d "Tool wear [min]" "Tool_wear_min" = two →
        preprocess_input enc FEATURE_COLUMNS d =
          .ok [some av, some pt, some sp, some tq, two, some ((enc ty : ℤ) : ℚ),
               some (pt - av), some (tq * sp / 1000)]) ∧
    (∀ (enc : String → ℤ) (cols : List String) (d : SensorInput) (ty : String),
        d.type_field = some ty →
        (resolveField d "Process temperature [K]" "Process_temperature_K" = none ∨
         resolveField d "Air temperature [K]" "Air_temperature_K" = none) →
        preprocess_input enc cols d = .error .typeError) ∧
    (∀ (enc : String → ℤ) (cols : List String) (d : SensorInput) (ty : String)
        (av pt : ℚ),
        d.type_field = some ty →
        resolveField d "Air temperature [K]" "Air_temperature_K" = some av →
        resolveField d "Process temperature [K]" "Process_temperature_K" = some pt →
        (resolveField d "Torque [Nm]" "Torque_Nm" = none ∨
         resolveField d "Rotational speed [rpm]" "Rotational_speed_rpm" = none) →
        preprocess_input enc cols d = .error .typeError) := by
  refine ⟨?_, ?_, ?_, ?_⟩
  · intro enc cols d h
    unfold preprocess_input
    rw [h]
  · intro enc d ty av pt sp tq two hty hair hproc hspeed htq htw
    unfold preprocess_input
    dsimp only
    rw [hty]
    dsimp only
    rw [hair, hproc, hspeed, htq, htw]
    rfl
  · intro enc cols d ty hty hdisj
    unfold preprocess_input
    dsimp only
    rw [hty]
    dsimp only
    rcases hdisj with hpt | hav
    · rw [hpt]
    · cases hq : resolveField d "Process temperature [K]" "Process_temperature_K" with
      | none => rfl
      | some pt => rw [hav]
  · intro enc cols d ty av pt hty hair hproc hdisj
    unfold preprocess_input
    dsimp only
    rw [hty]
    dsimp only
    rw [hproc, hair]
    dsimp only
    rcases hdisj with htq | hsp
    · rw [htq]
    · cases hq : resolveField d "Torque [Nm]" "Torque_Nm" with
      | none => rfl
      | some tq => rw [hsp]

/-- Counterexample to C6 as stated: an input whose tool-wear field is
missing entirely (under both accepted spellings) does not fail with any
error naming the field — preprocessing succeeds and silently places a
null in the tool-wear slot of the feature vector. -/
theorem C6_missing_field_cex :
    preprocess_input enc0 FEATURE_COLUMNS dNoWear =
      .ok [some 298, some 308, some 1551, some 42, none, some ((2 : ℤ) : ℚ),
           some ((308 : ℚ) - 298), some ((42 : ℚ) * 1551 / 1000)] := rfl

/-- Witness for C6 on a complete concrete input. -/
theorem C6_missing_field_witness :
    dFull.type_field = some "M" ∧
    preprocess_input enc0 FEATURE_COLUMNS dFull =
      .ok [some 298, some 308, some 1551, some 42, some 150,
           some ((enc0 "M" : ℤ) : ℚ), some ((308 : ℚ) - 298),
           some ((42 : ℚ) * 1551 / 1000)] :=
  ⟨rfl, C6_missing_field_amended.2.1 enc0 dFull "M" 298 308 1551 42 (some 150)
     rfl rfl rfl rfl rfl rfl⟩

/-- C7: the fallback lookup `get(bracketed) or get(normalized)` loses a
legitimate zero. Tool wear 0 under the bracketed key resolves to None
(the falsy 0 falls through to the absent normalized key), while the same
value under the normalized key resolves to 0, so the two spellings do
not map to the same semantic field and preprocessing gives different
feature vectors. -/
theorem C7_zero_value_fallback :
    resolveField dWear0 "Tool wear [min]" "Tool_wear_min" = none ∧
    resolveField dWear0norm "Tool wear [min]" "Tool_wear_min" = some 0 ∧
    preprocess_input enc0 FEATURE_COLUMNS dWear0 ≠
      preprocess_input enc0 FEATURE_COLUMNS dWear0norm := by
  refine ⟨rfl, rfl, ?_⟩
  have e1 : preprocess_input enc0 FEATURE_COLUMNS dWear0 =
      .ok [some 298, some 308, some 1551, some 42, none, some ((2 : ℤ) : ℚ),
           some ((308 : ℚ) - 298), some ((42 : ℚ) * 1551 / 1000)] := rfl
  have e2 : preprocess_input enc0 FEATURE_COLUMNS dWear0norm =
      .ok [some 298, some 308, some 1551, some 42, some 0, some ((2 : ℤ) : ℚ),
           some ((308 : ℚ) - 298), some ((42 : ℚ) * 1551 / 1000)] := rfl
  rw [e1, e2]
  intro h
  simp only [Except.ok.injEq, List.cons.injEq] at h
  exact Option.noConfusion h.2.2.2.2.1

/-- Python `or` keeps its left operand when that operand is a nonzero
number. -/
theorem pyOr_of_ne_zero (v : ℚ) (h : v ≠ 0) (b : Option ℚ) :
    pyOr (some v) b = some v := by
  simp [pyOr, pyTruthyNum, h]

/-- The bracketed-key lookup of a reading's air temperature. -/
theorem resolveField_reading_air (r : Reading) (h : r.air_temperature ≠ 0) :
    resolveField (readingToDict r) "Air temperature [K]" "Air_temperature_K" =
      some r.air_temperature := by
  unfold resolveField
  rw [show dictGet (readingToDict r) "Air temperature [K]" =
        some r.air_temperature from rfl]
  exact pyOr_of_ne_zero _ h _

/-- The bracketed-key lookup of a reading's process temperature. -/
theorem resolveField_reading_proc (r : Reading) (h : r.process_temperature ≠ 0) :
    resolveField (readingToDict r) "Process temperature [K]" "Process_temperature_K" =
      some r.process_temperature := by
  unfold resolveField
  rw [show dictGet (readingToDict r) "Process temperature [K]" =
        some r.process_temperature from rfl]
  exact pyOr_of_ne_zero _ h _

/-- The bracketed-key lookup of a reading's rotational speed. -/
theorem resolveField_reading_speed (r : Reading) (h : (r.rotational_speed : ℚ) ≠ 0) :
    resolveField (readingToDict r) "Rotational speed [rpm]" "Rotational_speed_rpm" =
      some (r.rotational_speed : ℚ) := by
  unfold resolveField
  rw [show dictGet (readingToDict r) "Rotational speed [rpm]" =
        some (r.rotational_speed : ℚ) from rfl]
  exact pyOr_of_ne_zero _ h _

/-- The bracketed-key lookup of a reading's torque. -/
theorem resolveField_reading_torque (r : Reading) (h : r.torque ≠ 0) :
    resolveField (readingToDict r) "Torque [Nm]" "Torque_Nm" = some r.torque := by
  unfold resolveField
  rw [show dictGet (readingToDict r) "Torque [Nm]" = some r.torque from rfl]
  exact pyOr_of_ne_zero _ h _

/-- Preprocessing a reading succeeds whenever the four fields that feed
the engineered features are nonzero (the tool wear may be anything,
including the falsy 0). -/
theorem preprocess_reading_ok (enc : String → ℤ) (cols : List String)
    (r : Reading) (ha : r.air_temperature ≠ 0) (hp : r.process_temperature ≠ 0)
    (hs : (r.rotational_speed : ℚ) ≠ 0) (ht : r.torque ≠ 0) :
    ∃ fv, preprocess_input enc cols (readingToDict r) = .ok fv := by
  unfold preprocess_input
  dsimp only
  rw [show (readingToDict r).type_field = some r.mtype from rfl]
  dsimp only
  rw [resolveField_reading_air r ha, resolveField_reading_proc r hp,
      resolveField_reading_speed r hs, resolveField_reading_torque r ht]
  exact ⟨_, rfl⟩

/-- A reading inside the configured ranges has nonzero values in the four
fields preprocessing computes with. -/
theorem range_nonzero (r : Reading) (h : ReadingInRange r) :
    r.air_temperature ≠ 0 ∧ r.process_temperature ≠ 0 ∧
      (r.rotational_speed : ℚ) ≠ 0 ∧ r.torque ≠ 0 := by
  obtain ⟨h1, -, h3, -, h5, -, h7, -, -, -⟩ := h
  have hsp : (1200 : ℚ) ≤ (r.rotational_speed : ℚ) := by exact_mod_cast h5
  exact ⟨by linarith, by linarith, by linarith, by linarith⟩

/-- The prediction loop succeeds on readings with nonzero core fields and
echoes each reading back in its record's sensor-data slot. -/
theorem predictList_ok_sensor (enc : String → ℤ) (cols : List String)
    (clf : List (Option ℚ) → ModelOutput) (rs : List Reading)
    (h : ∀ r ∈ rs, r.air_temperature ≠ 0 ∧ r.process_temperature ≠ 0 ∧
        (r.rotational_speed : ℚ) ≠ 0 ∧ r.torque ≠ 0) :
    ∃ ps, predictList enc cols clf rs = .ok ps ∧
      ps.map (fun p => p.sensor_data) = rs := by
  induction rs with
  | nil => exact ⟨[], rfl, rfl⟩
  | cons r rest ih =>
      obtain ⟨hr1, hr2, hr3, hr4⟩ := h r (by simp)
      obtain ⟨fv, hfv⟩ := preprocess_reading_ok enc cols r hr1 hr2 hr3 hr4
      obtain ⟨ps, hps, hmap⟩ := ih (fun x hx => h x (by simp [hx]))
      refine ⟨mkPredictionResult (clf fv) r :: ps, ?_, ?_⟩
      · simp only [predictList]
        rw [hfv, hps]
      · simp [hmap, mkPredictionResult]

/-- All readings of one fleet-wide generation are inside the configured
ranges, provided every machine satisfies the wear invariant and the
uniform draws are in range. -/
theorem genAll_range (ms : List MachineState) (ds : ℕ → GenDraws)
    (clk : ℕ → ℕ) (k : ℕ) (hms : ∀ m ∈ ms, WearInv m)
    (hds : ∀ j, GenDrawsValid (ds j)) :
    List.Forall ReadingInRange (genAll ms ds clk k).2 := by
  induction ms generalizing k with
  | nil => simp [genAll, List.Forall]
  | cons m rest ih =>
      simp only [genAll, List.forall_cons]
      exact ⟨(generate_step m (ds k) (clk k) (hms m (List.mem_cons_self m rest)) (hds k)).2.2,
        ih (k + 1) (fun x hx => hms x (List.mem_cons_of_mem m hx))⟩

/-- A successful prediction loop with more than one record makes
`predict` return the `multiple` shape. -/
theorem predict_multiple (enc : String → ℤ) (cols : List String)
    (clf : List (Option ℚ) → ModelOutput) (rs : List Reading)
    (ps : List PredictionResult) (h : predictList enc cols clf rs = .ok ps)
    (hlen : 1 < ps.length) :
    predict enc cols clf (Sum.inr rs) = .ok (.multiple ps) := by
  unfold predict
  dsimp only
  rw [h]
  dsimp only
  rw [if_pos hlen]

/-- C8 (amended): a fleet-wide call takes one `datetime.now()` reading
per machine — the i-th machine's reading (and hence its prediction
record) carries the clock value of the i-th successive call, not a
single timestamp stamped once for the whole batch. -/
theorem C8_per_call_timestamp_amended (ms : List MachineState)
    (ds : ℕ → GenDraws) (clk : ℕ → ℕ) :
    generate_data ms none ds clk =
      .ok ((genAll ms ds clk 0).1, .inr (genAll ms ds clk 0).2) ∧
    (genAll ms ds clk 0).2.map (fun r => r.timestamp) =
      (List.range ms.length).map clk := by
  refine ⟨rfl, ?_⟩
  rw [genAll_timestamps]
  simp

/-- Counterexample to C8 as stated: with a clock whose successive calls
return distinct values (0, then 1), the two prediction records of one
fleet-wide `get_real_time_predictions` call carry the timestamps 0 and 1
— not one identical batch timestamp. -/
theorem C8_shared_timestamp_cex :
    resultTimestamps (get_real_time_predictions [m0, mRisk] dsConst clkId enc0
      FEATURE_COLUMNS clf0) = [0, 1] ∧ (0 : ℕ) ≠ 1 := by
  have hinv : ∀ m ∈ [m0, mRisk], WearInv m := by
    intro m hm
    simp only [List.mem_cons, List.not_mem_nil, or_false] at hm
    rcases hm with h | h <;> subst h
    · exact init_WearInv "M001" "L" "healthy" iD0 (by norm_num [InitDrawsValid, iD0])
    · refine init_WearInv "M002" "M" "risk" iDrisk ?_
      unfold InitDrawsValid
      rw [if_neg (by decide), if_pos rfl]
      norm_num [iDrisk]
  have hrange := genAll_range [m0, mRisk] dsConst clkId 0 hinv
    (fun j => by norm_num [dsConst, GenDrawsValid, gd0])
  rw [List.forall_iff_forall_mem] at hrange
  obtain ⟨ps, hps, hmap⟩ := predictList_ok_sensor enc0 FEATURE_COLUMNS clf0
    (genAll [m0, mRisk] dsConst clkId 0).2
    (fun r hr => range_nonzero r (hrange r hr))
  have hlen2 : (genAll [m0, mRisk] dsConst clkId 0).2.length = 2 := by
    rw [genAll_length]
    rfl
  have hpslen : 1 < ps.length := by
    have hx := predictList_length enc0 FEATURE_COLUMNS clf0 _ ps hps
    rw [hlen2] at hx
    omega
  have hpred := predict_multiple enc0 FEATURE_COLUMNS clf0 _ ps hps hpslen
  refine ⟨?_, by decide⟩
  unfold get_real_time_predictions
  rw [show generate_data [m0, mRisk] none dsConst clkId =
        Except.ok ((genAll [m0, mRisk] dsConst clkId 0).1,
          Sum.inr (genAll [m0, mRisk] dsConst clkId 0).2) from rfl]
  dsimp only
  rw [hpred]
  unfold resultTimestamps batchTimestamps
  dsimp only
  have hcomp : ps.map (fun p => p.sensor_data.timestamp) =
      ((genAll [m0, mRisk] dsConst clkId 0).2).map (fun r => r.timestamp) := by
    rw [← hmap, List.map_map]
    rfl
  rw [hcomp, genAll_timestamps]
  rfl

/-- C9: `predict` returns a list of records only when it produced more
than one prediction; exactly one prediction gives a bare single record
(and a dict input is handled as the corresponding singleton list). -/
theorem C9_result_shape (enc : String → ℤ) (cols : List String)
    (clf : List (Option ℚ) → ModelOutput) (rs : List Reading)
    (ps : List PredictionResult) (h : predictList enc cols clf rs = .ok ps) :
    ps.length = rs.length ∧
    (1 < rs.length → predict enc cols clf (Sum.inr rs) = .ok (.multiple ps)) ∧
    (∀ p, ps = [p] → predict enc cols clf (Sum.inr rs) = .ok (.single p)) ∧
    (∀ r, rs = [r] →
      predict enc cols clf (Sum.inl r) = predict enc cols clf (Sum.inr rs)) := by
  have hlen := predictList_length enc cols clf rs ps h
  refine ⟨hlen, fun hgt => ?_, fun p hp => ?_, fun r hr => ?_⟩
  · exact predict_multiple enc cols clf rs ps h (by rw [hlen]; exact hgt)
  · unfold predict
    dsimp only
    rw [h, hp]
    rfl
  · rw [hr]
    rfl

/-- Witness for C9 on concrete inputs: two readings give the multiple
shape, and a single dict input is the singleton-list call. -/
theorem C9_result_shape_witness :
    1 < [r01, r02].length ∧
    predict enc0 FEATURE_COLUMNS clf0 (Sum.inr [r01, r02]) =
      .ok (.multiple (forceOk (predictList enc0 FEATURE_COLUMNS clf0 [r01, r02]))) ∧
    predict enc0 FEATURE_COLUMNS clf0 (Sum.inl r01) =
      predict enc0 FEATURE_COLUMNS clf0 (Sum.inr [r01]) :=
  ⟨by norm_num,
   (C9_result_shape enc0 FEATURE_COLUMNS clf0 [r01, r02]
      (forceOk (predictList enc0 FEATURE_COLUMNS clf0 [r01, r02])) rfl).2.1
     (by norm_num),
   (C9_result_shape enc0 FEATURE_COLUMNS clf0 [r01]
      (forceOk (predictList enc0 FEATURE_COLUMNS clf0 [r01])) rfl).2.2.2 r01 rfl⟩
